import Mathlib

/-!
Shallow embedding of the wfemto text editor core (`src/main.rs`).

Lines, the prompt buffer and the filename are sequences of code points
(`List Char`); Rust `usize` indices become `Nat` (Rust's panicking indexing
becomes total `getD`/`set`/`eraseIdx`; the in-range side conditions under
which the two agree are mirrored as hypotheses where a theorem needs them).
The wall-clock blink timer (`last_cursor_blink`) is I/O and is omitted;
`cursor_visible` is kept as a plain field.
-/

def EDITOR_COLS : Nat := 80

def EDITOR_ROWS : Nat := 32

def OPEN_FILE_MARGIN : Nat := 11

inductive EditorMode
  | Edit
  | OpenFile
deriving DecidableEq, Repr

structure TextEditor where
  lines : List (List Char)
  scr_col : Nat
  scr_row : Nat
  buffer_col : Nat
  buffer_row : Nat
  prev_cursor_x : Nat
  prev_cursor_y : Nat
  filename : List Char
  is_modified : Bool
  cursor_visible : Bool
  mode : EditorMode
  input_buffer : List Char
deriving DecidableEq, Repr

namespace TextEditor

/-- `TextEditor::new`. -/
def new : TextEditor where
  lines := [[]]
  scr_col := 0
  scr_row := 0
  prev_cursor_x := 0
  prev_cursor_y := 0
  buffer_col := 0
  buffer_row := 0
  filename := "filename.txt".toList
  is_modified := false
  cursor_visible := true
  mode := EditorMode.Edit
  input_buffer := []

/-- `TextEditor::insert_char`. -/
def insert_char (ed : TextEditor) (c : Char) : TextEditor :=
  if ed.mode = EditorMode.OpenFile then
    let pos := ed.scr_col - OPEN_FILE_MARGIN
    { ed with input_buffer := ed.input_buffer.insertIdx pos c
              scr_col := ed.scr_col + 1 }
  else
    let line := ed.lines.getD ed.buffer_row []
    { ed with lines := ed.lines.set ed.buffer_row (line.insertIdx ed.scr_col c)
              scr_col := ed.scr_col + 1
              is_modified := true }

/-- `TextEditor::backspace`. -/
def backspace (ed : TextEditor) : TextEditor :=
  if 0 < ed.scr_col then
    let line := ed.lines.getD ed.buffer_row []
    { ed with lines := ed.lines.set ed.buffer_row (line.eraseIdx (ed.scr_col - 1))
              scr_col := ed.scr_col - 1
              is_modified := true }
  else if 0 < ed.buffer_row then
    let current_line := ed.lines.getD ed.buffer_row []
    let lines1 := ed.lines.eraseIdx ed.buffer_row
    let row1 := ed.buffer_row - 1
    let prev := lines1.getD row1 []
    { ed with lines := lines1.set row1 (prev ++ current_line)
              buffer_row := row1
              scr_col := prev.length
              is_modified := true }
  else ed

/-- `TextEditor::backspace_buffer`. -/
def backspace_buffer (ed : TextEditor) (offset : Nat) : TextEditor :=
  if ed.input_buffer = [] ∨ ed.scr_col = offset then ed
  else
    let buffer_pos := ed.scr_col - offset - 1
    if buffer_pos ≤ ed.input_buffer.length then
      { ed with input_buffer := ed.input_buffer.eraseIdx buffer_pos
                scr_col := ed.scr_col - 1 }
    else ed

/-- `TextEditor::insert_newline`. -/
def insert_newline (ed : TextEditor) : TextEditor :=
  let current := ed.lines.getD ed.buffer_row []
  let rest_of_line := current.drop ed.scr_col
  let lines1 := ed.lines.set ed.buffer_row (current.take ed.scr_col)
  let row1 := ed.buffer_row + 1
  { ed with lines := lines1.insertIdx row1 rest_of_line
            buffer_row := row1
            scr_row := min (ed.scr_row + 1) (EDITOR_ROWS - 1)
            scr_col := 0
            is_modified := true }

/-- `TextEditor::move_cursor_left`. -/
def move_cursor_left (ed : TextEditor) : TextEditor :=
  if ed.mode = EditorMode.OpenFile then
    if 0 < ed.scr_col - OPEN_FILE_MARGIN then { ed with scr_col := ed.scr_col - 1 }
    else ed
  else if 0 < ed.scr_col then
    { ed with scr_col := ed.scr_col - 1 }
  else if 0 < ed.scr_row then
    let row1 := ed.buffer_row - 1
    { ed with buffer_row := row1
              scr_col := (ed.lines.getD row1 []).length }
  else ed

/-- `TextEditor::move_cursor_right`; the one call site in `main` passes a
`WindowInfo` with `cols = EDITOR_COLS`, inlined here. -/
def move_cursor_right (ed : TextEditor) : TextEditor :=
  if ed.mode = EditorMode.OpenFile then
    if ed.scr_col < ed.input_buffer.length + OPEN_FILE_MARGIN then
      { ed with scr_col := ed.scr_col + 1 }
    else ed
  else if ed.buffer_col < (ed.lines.getD ed.buffer_row []).length then
    if ed.scr_col < EDITOR_COLS - 1 then
      { ed with buffer_col := ed.buffer_col + 1, scr_col := ed.scr_col + 1 }
    else
      { ed with buffer_col := ed.buffer_col + 1 }
  else if ed.buffer_row < ed.lines.length - 1 then
    { ed with buffer_row := ed.buffer_row + 1, buffer_col := 0, scr_col := 0 }
  else ed

/-- `TextEditor::move_cursor_up`. -/
def move_cursor_up (ed : TextEditor) : TextEditor :=
  let ed1 :=
    if 0 < ed.buffer_row then
      let row1 := ed.buffer_row - 1
      let len1 := (ed.lines.getD row1 []).length
      { ed with buffer_row := row1
                scr_col := if len1 < ed.scr_col then len1 else ed.scr_col }
    else ed
  if 0 < ed1.scr_row ∧ ¬(ed1.scr_row = 5 ∧ 5 < ed1.buffer_row) then
    { ed1 with scr_row := ed1.scr_row - 1 }
  else ed1

/-- `TextEditor::move_cursor_down`; the one call site in `main` passes a
`WindowInfo` with `rows = EDITOR_ROWS`, inlined here. -/
def move_cursor_down (ed : TextEditor) : TextEditor :=
  if ed.buffer_row = ed.lines.length - 1 then ed
  else
    let ed1 :=
      if ed.buffer_row < ed.lines.length - 1 then
        let row1 := ed.buffer_row + 1
        let len1 := (ed.lines.getD row1 []).length
        { ed with buffer_row := row1
                  scr_col := if len1 < ed.scr_col then len1 else ed.scr_col }
      else ed
    let bm := EDITOR_ROWS - 5
    if ed1.scr_row < EDITOR_ROWS - 1 ∧
        ¬(ed1.scr_row = bm ∧ ed1.buffer_row < ed1.lines.length - 5) then
      { ed1 with scr_row := ed1.scr_row + 1 }
    else ed1

/-- Outcome of the file-I/O collaborator inside `TextEditor::load`: either
`File::open` fails, or it succeeds and `BufReader::lines` yields this list of
per-line read results in order. -/
inductive FileReadOutcome
  | openErr (msg : List Char)
  | opened (lineReads : List (Except (List Char) (List Char)))
deriving Repr

/-- The `for line in reader.lines()` loop of `TextEditor::load`: push each
successfully read line; on the first read error, return it (the `?`
early-return), keeping whatever has been pushed so far. -/
def loadLoop : TextEditor → List (Except (List Char) (List Char)) →
    TextEditor × Except (List Char) Unit
  | ed, [] => (ed, Except.ok ())
  | ed, Except.ok l :: rest => loadLoop { ed with lines := ed.lines ++ [l] } rest
  | ed, Except.error e :: _ => (ed, Except.error e)

/-- `TextEditor::load`. -/
def load (ed : TextEditor) (fname : List Char) (outcome : FileReadOutcome) :
    TextEditor × Except (List Char) Unit :=
  match outcome with
  | FileReadOutcome.openErr msg => (ed, Except.error msg)
  | FileReadOutcome.opened reads =>
    match loadLoop { ed with lines := [] } reads with
    | (ed1, Except.error e) => (ed1, Except.error e)
    | (ed1, Except.ok _) =>
      ({ ed1 with filename := fname
                  scr_col := 0
                  scr_row := 0
                  buffer_row := 0
                  is_modified := false },
       Except.ok ())

end TextEditor

/-! Key handlers from the event loop in `main` (the per-key match arms that
mutate the editor). -/

/-- The `Keycode::O` (ctrl-O) arm of `main`. -/
def ctrlO (ed : TextEditor) : TextEditor :=
  if ed.mode ≠ EditorMode.OpenFile then
    { ed with mode := EditorMode.OpenFile
              input_buffer := []
              prev_cursor_x := ed.scr_col
              prev_cursor_y := ed.scr_row
              scr_col := OPEN_FILE_MARGIN
              scr_row := EDITOR_ROWS }
  else ed

/-- The `Keycode::Escape` arm of `main` (no mode guard in the source). -/
def escapeKey (ed : TextEditor) : TextEditor :=
  { ed with mode := EditorMode.Edit
            scr_col := ed.prev_cursor_x
            scr_row := ed.prev_cursor_y }

/-- The `Keycode::Backspace` arm of `main`. -/
def backspaceKey (ed : TextEditor) : TextEditor :=
  if ed.mode = EditorMode.Edit then ed.backspace
  else ed.backspace_buffer OPEN_FILE_MARGIN

/-- The `Keycode::Home` arm of `main`. -/
def homeKey (ed : TextEditor) : TextEditor :=
  if ed.mode = EditorMode.Edit then { ed with scr_col := 0 }
  else { ed with scr_col := OPEN_FILE_MARGIN }

/-- The `Keycode::End` arm of `main`. -/
def endKey (ed : TextEditor) : TextEditor :=
  if ed.mode = EditorMode.Edit then
    { ed with scr_col := (ed.lines.getD ed.buffer_row []).length }
  else
    { ed with scr_col := ed.input_buffer.length + OPEN_FILE_MARGIN }

/-- The prompt-mode inputs a user may send between opening the prompt and
cancelling it: character insertions, backspace, left/right, home/end
(up/down are guarded by `mode == Edit` in `main` and do not reach the
editor while the prompt is open). -/
inductive PromptInput
  | ins (c : Char)
  | back
  | left
  | right
  | home
  | toEnd
deriving DecidableEq, Repr

/-- Dispatch of one prompt-mode input through the `main` match arms. -/
def promptStep (ed : TextEditor) : PromptInput → TextEditor
  | PromptInput.ins c => ed.insert_char c
  | PromptInput.back => backspaceKey ed
  | PromptInput.left => ed.move_cursor_left
  | PromptInput.right => ed.move_cursor_right
  | PromptInput.home => homeKey ed
  | PromptInput.toEnd => endKey ed

/-- A vertical move command (arrow up / arrow down in Edit mode). -/
inductive VMove
  | up
  | down
deriving DecidableEq, Repr

/-- Apply a sequence of vertical moves. -/
def applyMoves (ed : TextEditor) (ms : List VMove) : TextEditor :=
  ms.foldl
    (fun e m =>
      match m with
      | VMove.up => e.move_cursor_up
      | VMove.down => e.move_cursor_down)
    ed

/-- Fold a list of characters through `insert_char`. -/
def insertChars (ed : TextEditor) (cs : List Char) : TextEditor :=
  cs.foldl TextEditor.insert_char ed

/-- Apply `backspace` `n` times. -/
def backspaceN : Nat → TextEditor → TextEditor
  | 0, ed => ed
  | n + 1, ed => backspaceN n ed.backspace

/-- An open-file prompt session that is cancelled: enter the prompt (ctrl-O),
apply a sequence of prompt-mode inputs, then press escape. -/
def promptCancelSession (ed : TextEditor) (inputs : List PromptInput) : TextEditor :=
  escapeKey (List.foldl promptStep (ctrlO ed) inputs)

/-- Convenience constructor for concrete editor states: the given lines,
buffer column/row and screen column/row, with the remaining fields those of a
fresh editor in Edit mode. -/
def mkEd (ls : List (List Char)) (bc br sc sr : Nat) : TextEditor :=
  { lines := ls
    scr_col := sc
    scr_row := sr
    buffer_col := bc
    buffer_row := br
    prev_cursor_x := 0
    prev_cursor_y := 0
    filename := []
    is_modified := false
    cursor_visible := true
    mode := EditorMode.Edit
    input_buffer := [] }

/-- Concrete state for C2: one line "ab", cursor one code point in, with the
buffer and screen columns in agreement. -/
def c2state : TextEditor := mkEd [['a', 'b']] 1 0 1 0

/-- Concrete state for C4: lines "hello" / "world", cursor at (0,5). -/
def c4state : TextEditor := mkEd [['h', 'e', 'l', 'l', 'o'], ['w', 'o', 'r', 'l', 'd']] 5 0 5 0

/-- Concrete state for C6: ten blank lines, cursor on buffer row 7 shown at
screen row 5, so only two buffer rows precede the viewport start. -/
def c6state : TextEditor := mkEd (List.replicate 10 []) 0 7 0 5

/-- Concrete state for C7: three lines, cursor at column 0 of buffer row 2
shown at screen row 2. -/
def c7state : TextEditor := mkEd [['a'], ['b', 'c'], ['d']] 0 2 0 2

/-- Concrete state for C8: a document holding the single line "old". -/
def c8state : TextEditor := mkEd [['o', 'l', 'd']] 0 0 0 0

/-- Concrete read results for C8: one line reads fine, the second read
errors, a third would have followed. -/
def c8reads : List (Except (List Char) (List Char)) :=
  [Except.ok ['f', 'i', 'r', 's', 't'],
   Except.error ['d', 'i', 's', 'k'],
   Except.ok ['z']]

/-- The scroll/cursor row invariant of the spec: the screen row never falls
outside the window, never exceeds the buffer row (so the derived
`viewport_top = buffer_row - screen_row` is non-negative), and the buffer
row indexes an existing line. -/
def ScrollInv (ed : TextEditor) : Prop :=
  ed.scr_row ≤ ed.buffer_row ∧
  ed.scr_row ≤ EDITOR_ROWS - 1 ∧
  ed.buffer_row < ed.lines.length

instance (ed : TextEditor) : Decidable (ScrollInv ed) := by
  unfold ScrollInv
  infer_instance

/-! Helper lemmas about list indexing, used to relate the `set`/`getD`
embedding of Rust's in-place line mutation back to the untouched lines. -/

theorem list_getD_set_eq {α : Type} (l : List α) (i : Nat) (a d : α)
    (h : i < l.length) : (l.set i a).getD i d = a := by
  induction l generalizing i with
  | nil => simp at h
  | cons x t ih =>
    cases i with
    | zero => rfl
    | succ j => simpa using ih j (by simpa using h)

theorem list_set_getD_self {α : Type} (l : List α) (i : Nat) (d : α)
    (h : i < l.length) : l.set i (l.getD i d) = l := by
  induction l generalizing i with
  | nil => simp at h
  | cons x t ih =>
    cases i with
    | zero => rfl
    | succ j => simpa using ih j (by simpa using h)

theorem list_getD_set_ne {α : Type} (l : List α) (i j : Nat) (a d : α)
    (h : i ≠ j) : (l.set i a).getD j d = l.getD j d := by
  induction l generalizing i j with
  | nil => rfl
  | cons x t ih =>
    cases i with
    | zero =>
      cases j with
      | zero => exact absurd rfl h
      | succ k => rfl
    | succ i' =>
      cases j with
      | zero => rfl
      | succ k => simpa using ih i' k (by omega)

theorem list_getD_insertIdx_self {α : Type} (l : List α) (n : Nat) (a d : α)
    (h : n ≤ l.length) : (l.insertIdx n a).getD n d = a := by
  induction l generalizing n with
  | nil =>
    have hn : n = 0 := by simpa using h
    subst hn; rfl
  | cons x t ih =>
    cases n with
    | zero => rfl
    | succ m => simpa [List.insertIdx_succ_cons] using ih m (by simpa using h)

/-- C1: the claim is right about creation (`new` starts with one blank line)
but wrong about `load`: a successful load of a file with zero lines leaves
the Document with an empty line sequence, because `load` clears `lines` and
never substitutes a blank line. (The very next frame then indexes
`lines[buffer_row]` on the empty vector.) -/
theorem c1_load_empty_file_leaves_zero_lines :
    TextEditor.new.lines.length = 1 ∧
    (TextEditor.new.load "empty.txt".toList
        (TextEditor.FileReadOutcome.opened [])).1.lines = [] ∧
    (TextEditor.new.load "empty.txt".toList
        (TextEditor.FileReadOutcome.opened [])).2 = Except.ok () :=
  ⟨rfl, rfl, rfl⟩

/-- C2 counterexample: at a state satisfying every cursor invariant (buffer
and screen columns agree and are in bounds), `insert_char` does not advance
`buffer_col`: the claim requires it to grow by one, but the code leaves it
unchanged (only `scr_col` advances). -/
theorem c2_counterexample :
    c2state.mode = EditorMode.Edit ∧
    c2state.buffer_col = c2state.scr_col ∧
    c2state.buffer_row < c2state.lines.length ∧
    c2state.buffer_col ≤ (c2state.lines.getD c2state.buffer_row []).length ∧
    (c2state.insert_char 'x').buffer_col ≠ c2state.buffer_col + 1 := by
  decide

/-- C2 (amended): in Edit mode, `insert_char c` inserts `c` into the line at
`buffer_row` at position `scr_col` (the screen column, which is the column
the code actually edits with), advances `scr_col` by one, leaves
`buffer_col` and `buffer_row` unchanged, sets the modified flag, and changes
no other line. -/
theorem c2_insert_char_edits_at_screen_column (ed : TextEditor) (c : Char)
    (hmode : ed.mode = EditorMode.Edit)
    (hrow : ed.buffer_row < ed.lines.length) :
    (ed.insert_char c).lines.getD ed.buffer_row [] =
      (ed.lines.getD ed.buffer_row []).insertIdx ed.scr_col c ∧
    (ed.insert_char c).scr_col = ed.scr_col + 1 ∧
    (ed.insert_char c).buffer_col = ed.buffer_col ∧
    (ed.insert_char c).buffer_row = ed.buffer_row ∧
    (ed.insert_char c).is_modified = true ∧
    ∀ i, i ≠ ed.buffer_row →
      (ed.insert_char c).lines.getD i [] = ed.lines.getD i [] := by
  have hne : ¬(ed.mode = EditorMode.OpenFile) := by
    rw [hmode]; intro hc; cases hc
  refine ⟨?_, ?_, ?_, ?_, ?_, ?_⟩
  · simp only [TextEditor.insert_char, if_neg hne]
    exact list_getD_set_eq _ _ _ _ hrow
  · simp [TextEditor.insert_char, if_neg hne]
  · simp [TextEditor.insert_char, if_neg hne]
  · simp [TextEditor.insert_char, if_neg hne]
  · simp [TextEditor.insert_char, if_neg hne]
  · intro i hi
    simp only [TextEditor.insert_char, if_neg hne]
    exact list_getD_set_ne _ _ _ _ _ (Ne.symm hi)

/-- C2 witness: the amended statement evaluated at the concrete state
`c2state` with the character 'x'. -/
theorem c2_witness :
    c2state.mode = EditorMode.Edit ∧
    c2state.buffer_row < c2state.lines.length ∧
    ((c2state.insert_char 'x').lines.getD c2state.buffer_row [] =
      (c2state.lines.getD c2state.buffer_row []).insertIdx c2state.scr_col 'x' ∧
    (c2state.insert_char 'x').scr_col = c2state.scr_col + 1 ∧
    (c2state.insert_char 'x').buffer_col = c2state.buffer_col ∧
    (c2state.insert_char 'x').buffer_row = c2state.buffer_row ∧
    (c2state.insert_char 'x').is_modified = true ∧
    ∀ i, i ≠ c2state.buffer_row →
      (c2state.insert_char 'x').lines.getD i [] = c2state.lines.getD i []) :=
  ⟨by decide, by decide,
    c2_insert_char_edits_at_screen_column c2state 'x' (by decide) (by decide)⟩

/-- C10: the escape arm of the event loop has no mode guard: for every
state, also one already in Edit mode, it sets the mode to Edit and
overwrites the screen cursor with the saved prompt-entry coordinates; in a
fresh editor those are (0,0), so after typing a character (screen column 1)
escape drags the screen cursor back to column 0. -/
theorem c10_escape_handled_unconditionally :
    (∀ ed : TextEditor,
      (escapeKey ed).mode = EditorMode.Edit ∧
      (escapeKey ed).scr_col = ed.prev_cursor_x ∧
      (escapeKey ed).scr_row = ed.prev_cursor_y ∧
      (escapeKey ed).lines = ed.lines) ∧
    (TextEditor.new.prev_cursor_x = 0 ∧
     TextEditor.new.prev_cursor_y = 0 ∧
     (TextEditor.new.insert_char 'a').mode = EditorMode.Edit ∧
     (TextEditor.new.insert_char 'a').scr_col = 1 ∧
     (escapeKey (TextEditor.new.insert_char 'a')).scr_col = 0 ∧
     (escapeKey (TextEditor.new.insert_char 'a')).scr_row = 0) := by
  constructor
  · intro ed
    exact ⟨rfl, rfl, rfl, rfl⟩
  · decide

/-! Helper lemmas for the insert/backspace round trip (C3) and the
newline/backspace round trip (C4). -/

theorem backspaceN_succ_outer (n : Nat) (ed : TextEditor) :
    backspaceN (n + 1) ed = (backspaceN n ed).backspace := by
  induction n generalizing ed with
  | zero => rfl
  | succ m ih =>
    show backspaceN (m + 1) ed.backspace = (backspaceN (m + 1) ed).backspace
    rw [ih ed.backspace]
    rfl

theorem backspace_of_set_modified (ed : TextEditor) (b : Bool)
    (h : 0 < ed.scr_col) :
    TextEditor.backspace { ed with is_modified := b } = ed.backspace := by
  cases ed
  simp only [TextEditor.backspace] at *
  rw [if_pos h, if_pos h]

theorem insert_backspace_cancel (ed : TextEditor) (c : Char)
    (hmode : ed.mode = EditorMode.Edit)
    (hrow : ed.buffer_row < ed.lines.length)
    (hcol : ed.scr_col ≤ (ed.lines.getD ed.buffer_row []).length) :
    (ed.insert_char c).backspace = { ed with is_modified := true } := by
  have hne : ¬(ed.mode = EditorMode.OpenFile) := by
    rw [hmode]; intro hx; cases hx
  cases ed with
  | mk ls sc sr bc br px py fn im cv md ib =>
  simp only [TextEditor.insert_char] at *
  rw [if_neg hne]
  simp only [TextEditor.backspace]
  rw [if_pos (Nat.succ_pos sc)]
  simp only [Nat.add_sub_cancel]
  rw [list_getD_set_eq _ _ _ _ hrow, List.set_set, List.eraseIdx_insertIdx,
    list_set_getD_self _ _ _ hrow]

theorem c3_roundtrip_full (cs : List Char) :
    ∀ ed : TextEditor, ed.mode = EditorMode.Edit →
      ed.buffer_row < ed.lines.length →
      ed.scr_col ≤ (ed.lines.getD ed.buffer_row []).length →
      ∃ b : Bool,
        backspaceN cs.length (insertChars ed cs) = { ed with is_modified := b } := by
  induction cs with
  | nil =>
    intro ed _ _ _
    exact ⟨ed.is_modified, rfl⟩
  | cons c cs ih =>
    intro ed hm hr hc
    have hne : ¬(ed.mode = EditorMode.OpenFile) := by
      rw [hm]; intro hx; cases hx
    have hm' : (ed.insert_char c).mode = EditorMode.Edit := by
      simp [TextEditor.insert_char, if_neg hne, hm]
    have hr' : (ed.insert_char c).buffer_row < (ed.insert_char c).lines.length := by
      simpa [TextEditor.insert_char, if_neg hne] using hr
    have hc' : (ed.insert_char c).scr_col ≤
        ((ed.insert_char c).lines.getD (ed.insert_char c).buffer_row []).length := by
      simp only [TextEditor.insert_char, if_neg hne]
      rw [list_getD_set_eq _ _ _ _ hr, List.length_insertIdx _ _ hc]
      omega
    obtain ⟨b, hb⟩ := ih (ed.insert_char c) hm' hr' hc'
    refine ⟨true, ?_⟩
    have h1 : insertChars ed (c :: cs) = insertChars (ed.insert_char c) cs := rfl
    rw [h1, List.length_cons, backspaceN_succ_outer, hb,
      backspace_of_set_modified _ b
        (by simp [TextEditor.insert_char, if_neg hne]),
      insert_backspace_cancel ed c hm hr hc]

/-- C3: in Edit mode, from any state satisfying the cursor invariants, any
sequence of `insert_char`s followed by equally many `backspace`s restores
the Document lines byte-for-byte and the cursor's `(buffer_row, buffer_col)`
(and, in addition, the editing column `scr_col`). -/
theorem c3_insert_backspace_roundtrip (ed : TextEditor) (cs : List Char)
    (hmode : ed.mode = EditorMode.Edit)
    (hrow : ed.buffer_row < ed.lines.length)
    (hcol : ed.scr_col ≤ (ed.lines.getD ed.buffer_row []).length) :
    (backspaceN cs.length (insertChars ed cs)).lines = ed.lines ∧
    (backspaceN cs.length (insertChars ed cs)).buffer_row = ed.buffer_row ∧
    (backspaceN cs.length (insertChars ed cs)).buffer_col = ed.buffer_col ∧
    (backspaceN cs.length (insertChars ed cs)).scr_col = ed.scr_col := by
  obtain ⟨b, hb⟩ := c3_roundtrip_full cs ed hmode hrow hcol
  rw [hb]
  exact ⟨rfl, rfl, rfl, rfl⟩

/-- C3 witness: the round trip evaluated on a fresh editor with the
two-character insertion "hi". -/
theorem c3_witness :
    TextEditor.new.mode = EditorMode.Edit ∧
    TextEditor.new.buffer_row < TextEditor.new.lines.length ∧
    TextEditor.new.scr_col ≤
      (TextEditor.new.lines.getD TextEditor.new.buffer_row []).length ∧
    ((backspaceN (['h', 'i'] : List Char).length
        (insertChars TextEditor.new ['h', 'i'])).lines = TextEditor.new.lines ∧
     (backspaceN (['h', 'i'] : List Char).length
        (insertChars TextEditor.new ['h', 'i'])).buffer_row = TextEditor.new.buffer_row ∧
     (backspaceN (['h', 'i'] : List Char).length
        (insertChars TextEditor.new ['h', 'i'])).buffer_col = TextEditor.new.buffer_col ∧
     (backspaceN (['h', 'i'] : List Char).length
        (insertChars TextEditor.new ['h', 'i'])).scr_col = TextEditor.new.scr_col) :=
  ⟨by decide, by decide, by decide,
    c3_insert_backspace_roundtrip TextEditor.new ['h', 'i']
      (by decide) (by decide) (by decide)⟩

theorem newline_backspace_cancel (ed : TextEditor)
    (hrow : ed.buffer_row < ed.lines.length)
    (hcol : ed.scr_col ≤ (ed.lines.getD ed.buffer_row []).length) :
    ed.insert_newline.backspace =
      { ed with scr_row := min (ed.scr_row + 1) (EDITOR_ROWS - 1)
                is_modified := true } := by
  cases ed with
  | mk ls sc sr bc br px py fn im cv md ib =>
  simp only [TextEditor.insert_newline] at *
  simp only [TextEditor.backspace]
  rw [if_neg (by omega : ¬(0 < 0))]
  rw [if_pos (Nat.succ_pos br)]
  simp only [Nat.add_sub_cancel]
  rw [List.eraseIdx_insertIdx,
    list_getD_insertIdx_self _ _ _ _ (by simpa using Nat.succ_le_of_lt hrow),
    list_getD_set_eq _ _ _ _ hrow, List.set_set, List.take_append_drop,
    list_set_getD_self _ _ _ hrow, List.length_take]
  rw [Nat.min_eq_left hcol]

/-- C4: `insert_newline` puts the cursor at column 0 of the new line
`buffer_row + 1`, and an immediate `backspace` there restores the lines and
the cursor position — the (row, column) editing position `(buffer_row,
scr_col)`, with `buffer_col` also untouched (the screen row, not part of the
claim's cursor pairs, keeps the nudge of `insert_newline`). The concrete
scenario: from lines "hello"/"world" with cursor (0,5), `insert_char '!'`
then `insert_newline` then `backspace` gives lines "hello!"/"world" with the
cursor at (0,6). -/
theorem c4_newline_backspace_inverse (ed : TextEditor)
    (hrow : ed.buffer_row < ed.lines.length)
    (hcol : ed.scr_col ≤ (ed.lines.getD ed.buffer_row []).length) :
    (ed.insert_newline.scr_col = 0 ∧
     ed.insert_newline.buffer_row = ed.buffer_row + 1 ∧
     ed.insert_newline.backspace.lines = ed.lines ∧
     ed.insert_newline.backspace.buffer_row = ed.buffer_row ∧
     ed.insert_newline.backspace.scr_col = ed.scr_col ∧
     ed.insert_newline.backspace.buffer_col = ed.buffer_col) ∧
    ((c4state.insert_char '!').lines = [['h', 'e', 'l', 'l', 'o', '!'],
        ['w', 'o', 'r', 'l', 'd']] ∧
     (c4state.insert_char '!').scr_col = 6 ∧
     (c4state.insert_char '!').insert_newline.lines =
       [['h', 'e', 'l', 'l', 'o', '!'], [], ['w', 'o', 'r', 'l', 'd']] ∧
     (c4state.insert_char '!').insert_newline.buffer_row = 1 ∧
     (c4state.insert_char '!').insert_newline.scr_col = 0 ∧
     (c4state.insert_char '!').insert_newline.backspace.lines =
       [['h', 'e', 'l', 'l', 'o', '!'], ['w', 'o', 'r', 'l', 'd']] ∧
     (c4state.insert_char '!').insert_newline.backspace.buffer_row = 0 ∧
     (c4state.insert_char '!').insert_newline.backspace.scr_col = 6) := by
  constructor
  · refine ⟨rfl, rfl, ?_, ?_, ?_, ?_⟩ <;>
      rw [newline_backspace_cancel ed hrow hcol]
  · decide

/-- C4 witness: the general inverse statement evaluated at the concrete
scenario state `c4state`. -/
theorem c4_witness :
    c4state.buffer_row < c4state.lines.length ∧
    c4state.scr_col ≤ (c4state.lines.getD c4state.buffer_row []).length ∧
    ((c4state.insert_newline.scr_col = 0 ∧
      c4state.insert_newline.buffer_row = c4state.buffer_row + 1 ∧
      c4state.insert_newline.backspace.lines = c4state.lines ∧
      c4state.insert_newline.backspace.buffer_row = c4state.buffer_row ∧
      c4state.insert_newline.backspace.scr_col = c4state.scr_col ∧
      c4state.insert_newline.backspace.buffer_col = c4state.buffer_col) ∧
     ((c4state.insert_char '!').lines = [['h', 'e', 'l', 'l', 'o', '!'],
         ['w', 'o', 'r', 'l', 'd']] ∧
      (c4state.insert_char '!').scr_col = 6 ∧
      (c4state.insert_char '!').insert_newline.lines =
        [['h', 'e', 'l', 'l', 'o', '!'], [], ['w', 'o', 'r', 'l', 'd']] ∧
      (c4state.insert_char '!').insert_newline.buffer_row = 1 ∧
      (c4state.insert_char '!').insert_newline.scr_col = 0 ∧
      (c4state.insert_char '!').insert_newline.backspace.lines =
        [['h', 'e', 'l', 'l', 'o', '!'], ['w', 'o', 'r', 'l', 'd']] ∧
      (c4state.insert_char '!').insert_newline.backspace.buffer_row = 0 ∧
      (c4state.insert_char '!').insert_newline.backspace.scr_col = 6)) :=
  ⟨by decide, by decide,
    c4_newline_backspace_inverse c4state (by decide) (by decide)⟩

/-! Scroll-invariant preservation (C5). -/

theorem move_cursor_up_scroll_inv (ed : TextEditor) (h : ScrollInv ed) :
    ScrollInv ed.move_cursor_up := by
  obtain ⟨h1, h2, h3⟩ := h
  cases ed with
  | mk ls sc sr bc br px py fn im cv md ib =>
  simp only [ScrollInv, EDITOR_ROWS] at *
  by_cases hbr : 0 < br
  · simp only [TextEditor.move_cursor_up, if_pos hbr, EDITOR_ROWS]
    split_ifs <;> (dsimp only; omega)
  · simp only [TextEditor.move_cursor_up, if_neg hbr, EDITOR_ROWS]
    split_ifs <;> (dsimp only; omega)

theorem move_cursor_down_scroll_inv (ed : TextEditor) (h : ScrollInv ed) :
    ScrollInv ed.move_cursor_down := by
  obtain ⟨h1, h2, h3⟩ := h
  cases ed with
  | mk ls sc sr bc br px py fn im cv md ib =>
  simp only [ScrollInv, EDITOR_ROWS] at *
  by_cases hlast : br = ls.length - 1
  · simp only [TextEditor.move_cursor_down, if_pos hlast]
    exact ⟨h1, h2, h3⟩
  · by_cases hlt : br < ls.length - 1
    · simp only [TextEditor.move_cursor_down, if_neg hlast, if_pos hlt, EDITOR_ROWS]
      split_ifs <;> (dsimp only; omega)
    · simp only [TextEditor.move_cursor_down, if_neg hlast, if_neg hlt, EDITOR_ROWS]
      split_ifs <;> (dsimp only; omega)

theorem applyMoves_scroll_inv (ms : List VMove) :
    ∀ ed : TextEditor, ScrollInv ed → ScrollInv (applyMoves ed ms) := by
  induction ms with
  | nil => intro ed h; exact h
  | cons m ms ih =>
    intro ed h
    have hstep : ScrollInv
        (match m with
         | VMove.up => ed.move_cursor_up
         | VMove.down => ed.move_cursor_down) := by
      cases m
      · exact move_cursor_up_scroll_inv ed h
      · exact move_cursor_down_scroll_inv ed h
    exact ih _ hstep

/-- C5: from any Edit-mode state satisfying the cursor/scroll invariants
(screen row at most the buffer row, screen row within the 32-row window,
buffer row in bounds), every sequence of up/down moves keeps
`buffer_row - screen_row ≥ 0` (stated over `Nat` as
`screen_row ≤ buffer_row`) and `screen_row ≤ ROWS - 1`. -/
theorem c5_scroll_invariant_preserved (ed : TextEditor) (ms : List VMove)
    (h1 : ed.scr_row ≤ ed.buffer_row)
    (h2 : ed.scr_row ≤ EDITOR_ROWS - 1)
    (h3 : ed.buffer_row < ed.lines.length) :
    (applyMoves ed ms).scr_row ≤ (applyMoves ed ms).buffer_row ∧
    (applyMoves ed ms).scr_row ≤ EDITOR_ROWS - 1 := by
  have h := applyMoves_scroll_inv ms ed ⟨h1, h2, h3⟩
  exact ⟨h.1, h.2.1⟩

/-- C5 witness: the invariant preservation evaluated on a three-line
document with the move sequence down, down, up. -/
theorem c5_witness :
    (mkEd (List.replicate 3 []) 0 0 0 0).scr_row ≤
      (mkEd (List.replicate 3 []) 0 0 0 0).buffer_row ∧
    (mkEd (List.replicate 3 []) 0 0 0 0).scr_row ≤ EDITOR_ROWS - 1 ∧
    (mkEd (List.replicate 3 []) 0 0 0 0).buffer_row <
      (mkEd (List.replicate 3 []) 0 0 0 0).lines.length ∧
    ((applyMoves (mkEd (List.replicate 3 []) 0 0 0 0)
        [VMove.down, VMove.down, VMove.up]).scr_row ≤
      (applyMoves (mkEd (List.replicate 3 []) 0 0 0 0)
        [VMove.down, VMove.down, VMove.up]).buffer_row ∧
     (applyMoves (mkEd (List.replicate 3 []) 0 0 0 0)
        [VMove.down, VMove.down, VMove.up]).scr_row ≤ EDITOR_ROWS - 1) :=
  ⟨by decide, by decide, by decide,
    c5_scroll_invariant_preserved (mkEd (List.replicate 3 []) 0 0 0 0)
      [VMove.down, VMove.down, VMove.up] (by decide) (by decide) (by decide)⟩

/-- C6 counterexample: at `c6state` the screen row is the top trigger 5 but
only two buffer rows precede the viewport start (`viewport_top = 2`, and
after the move only one), yet `move_cursor_up` holds the screen row steady —
the code's trigger is `buffer_row > 5` after the decrement, not "more than 5
buffer rows precede the viewport start" — so the claimed "exactly when" is
false at this state. -/
theorem c6_counterexample :
    c6state.scr_row = 5 ∧
    0 < c6state.scr_row ∧
    c6state.buffer_row - c6state.scr_row = 2 ∧
    c6state.move_cursor_up.scr_row = c6state.scr_row ∧
    c6state.move_cursor_up.buffer_row - c6state.move_cursor_up.scr_row = 1 ∧
    ¬(c6state.move_cursor_up.scr_row = c6state.scr_row →
        5 < c6state.buffer_row - c6state.scr_row) := by
  decide

/-- C6 (amended): during `move_cursor_up` the screen row is held exactly
when it is already 0, or when it equals the top trigger row 5 and the
post-move buffer row exceeds 5 (so at least one buffer row precedes the
viewport start) — not "more than 5 precede"; during `move_cursor_down`
(under the window bound on the screen row) it is held exactly when the
cursor is on the last line, or the screen row is at the window bottom
`ROWS - 1`, or it equals the bottom trigger `ROWS - 5` and the post-move
buffer row is below `len - 5` (at least 5 lines remain below, not "more
than 5"); otherwise the screen row follows the buffer row by one. -/
theorem c6_hysteresis_characterization (ed : TextEditor)
    (hwin : ed.scr_row ≤ EDITOR_ROWS - 1) :
    ((ed.move_cursor_up.scr_row = ed.scr_row) ↔
      (ed.scr_row = 0 ∨ (ed.scr_row = 5 ∧ 5 < ed.move_cursor_up.buffer_row))) ∧
    (ed.move_cursor_up.scr_row ≠ ed.scr_row →
      ed.move_cursor_up.scr_row = ed.scr_row - 1) ∧
    ((ed.move_cursor_down.scr_row = ed.scr_row) ↔
      (ed.buffer_row = ed.lines.length - 1 ∨
       ed.scr_row = EDITOR_ROWS - 1 ∨
       (ed.scr_row = EDITOR_ROWS - 5 ∧
         ed.move_cursor_down.buffer_row < ed.lines.length - 5))) ∧
    (ed.move_cursor_down.scr_row ≠ ed.scr_row →
      ed.move_cursor_down.scr_row = ed.scr_row + 1) := by
  cases ed with
  | mk ls sc sr bc br px py fn im cv md ib =>
  simp only [EDITOR_ROWS] at hwin
  refine ⟨?_, ?_, ?_, ?_⟩
  · by_cases hbr : 0 < br
    · simp only [TextEditor.move_cursor_up, if_pos hbr, EDITOR_ROWS]
      split_ifs <;> (dsimp only; omega)
    · simp only [TextEditor.move_cursor_up, if_neg hbr, EDITOR_ROWS]
      split_ifs <;> (dsimp only; omega)
  · by_cases hbr : 0 < br
    · simp only [TextEditor.move_cursor_up, if_pos hbr, EDITOR_ROWS]
      split_ifs <;> (dsimp only; omega)
    · simp only [TextEditor.move_cursor_up, if_neg hbr, EDITOR_ROWS]
      split_ifs <;> (dsimp only; omega)
  · by_cases hlast : br = ls.length - 1
    · simp [TextEditor.move_cursor_down, if_pos hlast, EDITOR_ROWS, hlast]
    · by_cases hlt : br < ls.length - 1
      · simp only [TextEditor.move_cursor_down, if_neg hlast, if_pos hlt, EDITOR_ROWS]
        split_ifs <;> (dsimp only; omega)
      · simp only [TextEditor.move_cursor_down, if_neg hlast, if_neg hlt, EDITOR_ROWS]
        split_ifs <;> (dsimp only; omega)
  · by_cases hlast : br = ls.length - 1
    · simp [TextEditor.move_cursor_down, if_pos hlast, EDITOR_ROWS, hlast]
    · by_cases hlt : br < ls.length - 1
      · simp only [TextEditor.move_cursor_down, if_neg hlast, if_pos hlt, EDITOR_ROWS]
        split_ifs <;> (dsimp only; omega)
      · simp only [TextEditor.move_cursor_down, if_neg hlast, if_neg hlt, EDITOR_ROWS]
        split_ifs <;> (dsimp only; omega)

/-- C6 witness: the amended characterization evaluated at `c6state`. -/
theorem c6_witness :
    c6state.scr_row ≤ EDITOR_ROWS - 1 ∧
    (((c6state.move_cursor_up.scr_row = c6state.scr_row) ↔
       (c6state.scr_row = 0 ∨
        (c6state.scr_row = 5 ∧ 5 < c6state.move_cursor_up.buffer_row))) ∧
     (c6state.move_cursor_up.scr_row ≠ c6state.scr_row →
       c6state.move_cursor_up.scr_row = c6state.scr_row - 1) ∧
     ((c6state.move_cursor_down.scr_row = c6state.scr_row) ↔
       (c6state.buffer_row = c6state.lines.length - 1 ∨
        c6state.scr_row = EDITOR_ROWS - 1 ∨
        (c6state.scr_row = EDITOR_ROWS - 5 ∧
          c6state.move_cursor_down.buffer_row < c6state.lines.length - 5))) ∧
     (c6state.move_cursor_down.scr_row ≠ c6state.scr_row →
       c6state.move_cursor_down.scr_row = c6state.scr_row + 1)) :=
  ⟨by decide, c6_hysteresis_characterization c6state (by decide)⟩

/-- C7 counterexample: at `c7state` (Edit mode, column 0, buffer row 2 shown
at screen row 2) `move_cursor_left` moves to the end of the previous line
but leaves the screen row unchanged, while the claim requires the screen row
to drop by one whenever it is positive. -/
theorem c7_counterexample :
    c7state.mode = EditorMode.Edit ∧
    c7state.scr_col = 0 ∧
    0 < c7state.buffer_row ∧
    0 < c7state.scr_row ∧
    c7state.move_cursor_left.buffer_row = c7state.buffer_row - 1 ∧
    c7state.move_cursor_left.scr_row ≠ c7state.scr_row - 1 := by
  decide

/-- C7 (amended): in Edit mode with the cursor at screen column 0,
`move_cursor_left` moves to the end of the previous line only when
`scr_row > 0` (the code guards on the screen row, not the buffer row; under
the scroll invariant `scr_row ≤ buffer_row` the guard implies
`buffer_row > 0`, but at `scr_row = 0` the move is a no-op even when
`buffer_row > 0`), and it never changes the screen row. -/
theorem c7_move_left_at_column_zero (ed : TextEditor)
    (hmode : ed.mode = EditorMode.Edit)
    (hcol : ed.scr_col = 0) :
    (0 < ed.scr_row →
      ed.move_cursor_left.buffer_row = ed.buffer_row - 1 ∧
      ed.move_cursor_left.scr_col = (ed.lines.getD (ed.buffer_row - 1) []).length ∧
      ed.move_cursor_left.scr_row = ed.scr_row ∧
      ed.move_cursor_left.buffer_col = ed.buffer_col) ∧
    (ed.scr_row = 0 → ed.move_cursor_left = ed) := by
  have hne : ¬(ed.mode = EditorMode.OpenFile) := by
    rw [hmode]; intro hx; cases hx
  constructor
  · intro hsr
    simp only [TextEditor.move_cursor_left, if_neg hne, hcol]
    rw [if_neg (by omega : ¬(0:Nat) < 0), if_pos hsr]
    exact ⟨rfl, rfl, rfl, rfl⟩
  · intro hsr
    simp only [TextEditor.move_cursor_left, if_neg hne, hcol, hsr]
    rw [if_neg (by omega : ¬(0:Nat) < 0), if_neg (by omega : ¬(0:Nat) < 0)]

/-- C7 witness: the amended statement evaluated at `c7state`. -/
theorem c7_witness :
    c7state.mode = EditorMode.Edit ∧
    c7state.scr_col = 0 ∧
    ((0 < c7state.scr_row →
      c7state.move_cursor_left.buffer_row = c7state.buffer_row - 1 ∧
      c7state.move_cursor_left.scr_col =
        (c7state.lines.getD (c7state.buffer_row - 1) []).length ∧
      c7state.move_cursor_left.scr_row = c7state.scr_row ∧
      c7state.move_cursor_left.buffer_col = c7state.buffer_col) ∧
     (c7state.scr_row = 0 → c7state.move_cursor_left = c7state)) :=
  ⟨by decide, by decide,
    c7_move_left_at_column_zero c7state (by decide) (by decide)⟩

/-- C8 counterexample: from a document holding "old", a load whose second
line read fails returns an error but leaves the Document neither unchanged
nor fully replaced — it holds exactly the successfully-read prefix. -/
theorem c8_counterexample :
    (c8state.load ['f'] (TextEditor.FileReadOutcome.opened c8reads)).2 =
      Except.error ['d', 'i', 's', 'k'] ∧
    (c8state.load ['f'] (TextEditor.FileReadOutcome.opened c8reads)).1.lines ≠
      c8state.lines ∧
    (c8state.load ['f'] (TextEditor.FileReadOutcome.opened c8reads)).1.lines =
      [['f', 'i', 'r', 's', 't']] ∧
    c8state.lines = [['o', 'l', 'd']] :=
  ⟨rfl, by decide, by decide, by decide⟩

theorem loadLoop_ok_lines (pre : List (List Char)) :
    ∀ (ed : TextEditor) (rest : List (Except (List Char) (List Char))),
      TextEditor.loadLoop ed (pre.map Except.ok ++ rest) =
        TextEditor.loadLoop { ed with lines := ed.lines ++ pre } rest := by
  induction pre with
  | nil =>
    intro ed rest
    simp only [List.map_nil, List.nil_append, List.append_nil]
  | cons l pre ih =>
    intro ed rest
    simp only [List.map_cons, List.cons_append, TextEditor.loadLoop, List.append_eq]
    rw [ih]
    simp [List.append_assoc]

/-- C8 (amended): if opening the file fails, `load` returns the error and
leaves the editor (in particular the Document lines) exactly as it was; but
the replacement is not all-or-nothing: if a line read fails partway, `load`
returns the error with the previous lines already discarded and only the
successfully-read prefix in place (and the filename/cursor/modified fields
untouched); only on full success are the lines replaced wholesale and the
filename, screen cursor, buffer row and modified flag reset. -/
theorem c8_load_error_behaviour :
    (∀ (ed : TextEditor) (f msg : List Char),
      ed.load f (TextEditor.FileReadOutcome.openErr msg) = (ed, Except.error msg)) ∧
    (∀ (ed : TextEditor) (f msg : List Char) (pre : List (List Char))
        (rest : List (Except (List Char) (List Char))),
      ed.load f (TextEditor.FileReadOutcome.opened
          (pre.map Except.ok ++ Except.error msg :: rest)) =
        ({ ed with lines := pre }, Except.error msg)) ∧
    (∀ (ed : TextEditor) (f : List Char) (ls : List (List Char)),
      ed.load f (TextEditor.FileReadOutcome.opened (ls.map Except.ok)) =
        ({ ed with lines := ls
                   filename := f
                   scr_col := 0
                   scr_row := 0
                   buffer_row := 0
                   is_modified := false },
         Except.ok ())) := by
  refine ⟨fun ed f msg => rfl, ?_, ?_⟩
  · intro ed f msg pre rest
    simp only [TextEditor.load]
    rw [loadLoop_ok_lines]
    simp only [List.nil_append, TextEditor.loadLoop]
  · intro ed f ls
    simp only [TextEditor.load]
    rw [← List.append_nil (ls.map Except.ok), loadLoop_ok_lines]
    simp only [List.nil_append, TextEditor.loadLoop]

/-- Each prompt-mode input leaves the Document, the saved cursor snapshot,
the buffer cursor, the modified flag, the filename and the mode alone (it
only edits `input_buffer` and `scr_col`). -/
theorem promptStep_frame (ed : TextEditor) (i : PromptInput)
    (h : ed.mode = EditorMode.OpenFile) :
    (promptStep ed i).lines = ed.lines ∧
    (promptStep ed i).mode = EditorMode.OpenFile ∧
    (promptStep ed i).prev_cursor_x = ed.prev_cursor_x ∧
    (promptStep ed i).prev_cursor_y = ed.prev_cursor_y ∧
    (promptStep ed i).buffer_row = ed.buffer_row ∧
    (promptStep ed i).buffer_col = ed.buffer_col ∧
    (promptStep ed i).is_modified = ed.is_modified ∧
    (promptStep ed i).filename = ed.filename := by
  have hne : ¬(ed.mode = EditorMode.Edit) := by
    rw [h]; intro hx; cases hx
  cases i with
  | ins c =>
    simp [promptStep, TextEditor.insert_char, if_pos h, h]
  | back =>
    simp only [promptStep, backspaceKey, if_neg hne, TextEditor.backspace_buffer]
    split_ifs <;> simp [h]
  | left =>
    simp only [promptStep, TextEditor.move_cursor_left, if_pos h]
    split_ifs <;> simp [h]
  | right =>
    simp only [promptStep, TextEditor.move_cursor_right, if_pos h]
    split_ifs <;> simp [h]
  | home =>
    simp [promptStep, homeKey, if_neg hne, h]
  | toEnd =>
    simp [promptStep, endKey, if_neg hne, h]

theorem promptFold_frame (is : List PromptInput) :
    ∀ ed : TextEditor, ed.mode = EditorMode.OpenFile →
      (List.foldl promptStep ed is).lines = ed.lines ∧
      (List.foldl promptStep ed is).mode = EditorMode.OpenFile ∧
      (List.foldl promptStep ed is).prev_cursor_x = ed.prev_cursor_x ∧
      (List.foldl promptStep ed is).prev_cursor_y = ed.prev_cursor_y ∧
      (List.foldl promptStep ed is).buffer_row = ed.buffer_row ∧
      (List.foldl promptStep ed is).buffer_col = ed.buffer_col ∧
      (List.foldl promptStep ed is).is_modified = ed.is_modified ∧
      (List.foldl promptStep ed is).filename = ed.filename := by
  induction is with
  | nil =>
    intro ed h
    exact ⟨rfl, h, rfl, rfl, rfl, rfl, rfl, rfl⟩
  | cons i is ih =>
    intro ed h
    obtain ⟨s1, s2, s3, s4, s5, s6, s7, s8⟩ := promptStep_frame ed i h
    obtain ⟨t1, t2, t3, t4, t5, t6, t7, t8⟩ := ih (promptStep ed i) s2
    exact ⟨t1.trans s1, t2, t3.trans s3, t4.trans s4, t5.trans s5,
      t6.trans s6, t7.trans s7, t8.trans s8⟩

/-- C9: opening the file prompt from Edit mode, sending any sequence of
prompt-mode inputs (character insertions, backspaces, left/right, home/end)
and cancelling with escape leaves the Document lines, the buffer cursor and
the modified flag untouched, returns the mode to Edit, and restores the
screen cursor `(scr_col, scr_row)` to exactly its values at prompt entry. -/
theorem c9_prompt_cancel_is_noop (ed : TextEditor) (inputs : List PromptInput)
    (hmode : ed.mode = EditorMode.Edit) :
    (promptCancelSession ed inputs).lines = ed.lines ∧
    (promptCancelSession ed inputs).mode = EditorMode.Edit ∧
    (promptCancelSession ed inputs).scr_col = ed.scr_col ∧
    (promptCancelSession ed inputs).scr_row = ed.scr_row ∧
    (promptCancelSession ed inputs).buffer_row = ed.buffer_row ∧
    (promptCancelSession ed inputs).buffer_col = ed.buffer_col ∧
    (promptCancelSession ed inputs).is_modified = ed.is_modified := by
  have hne : ed.mode ≠ EditorMode.OpenFile := by
    rw [hmode]; intro hx; cases hx
  have hopen : (ctrlO ed).mode = EditorMode.OpenFile := by
    simp [ctrlO, if_pos hne]
  obtain ⟨t1, t2, t3, t4, t5, t6, t7, t8⟩ := promptFold_frame inputs (ctrlO ed) hopen
  have hl : (ctrlO ed).lines = ed.lines := by simp [ctrlO, if_pos hne]
  have hx : (ctrlO ed).prev_cursor_x = ed.scr_col := by simp [ctrlO, if_pos hne]
  have hy : (ctrlO ed).prev_cursor_y = ed.scr_row := by simp [ctrlO, if_pos hne]
  have hbr : (ctrlO ed).buffer_row = ed.buffer_row := by simp [ctrlO, if_pos hne]
  have hbc : (ctrlO ed).buffer_col = ed.buffer_col := by simp [ctrlO, if_pos hne]
  have him : (ctrlO ed).is_modified = ed.is_modified := by simp [ctrlO, if_pos hne]
  simp only [promptCancelSession, escapeKey]
  exact ⟨t1.trans hl, True.intro, t3.trans hx, t4.trans hy, t5.trans hbr,
    t6.trans hbc, t7.trans him⟩

/-- C9 witness: the cancelled prompt session evaluated on a fresh editor
with a seven-input prompt interaction. -/
theorem c9_witness :
    TextEditor.new.mode = EditorMode.Edit ∧
    ((promptCancelSession TextEditor.new
        [PromptInput.ins 'a', PromptInput.ins 'b', PromptInput.left,
         PromptInput.back, PromptInput.home, PromptInput.toEnd,
         PromptInput.right]).lines = TextEditor.new.lines ∧
     (promptCancelSession TextEditor.new
        [PromptInput.ins 'a', PromptInput.ins 'b', PromptInput.left,
         PromptInput.back, PromptInput.home, PromptInput.toEnd,
         PromptInput.right]).mode = EditorMode.Edit ∧
     (promptCancelSession TextEditor.new
        [PromptInput.ins 'a', PromptInput.ins 'b', PromptInput.left,
         PromptInput.back, PromptInput.home, PromptInput.toEnd,
         PromptInput.right]).scr_col = TextEditor.new.scr_col ∧
     (promptCancelSession TextEditor.new
        [PromptInput.ins 'a', PromptInput.ins 'b', PromptInput.left,
         PromptInput.back, PromptInput.home, PromptInput.toEnd,
         PromptInput.right]).scr_row = TextEditor.new.scr_row ∧
     (promptCancelSession TextEditor.new
        [PromptInput.ins 'a', PromptInput.ins 'b', PromptInput.left,
         PromptInput.back, PromptInput.home, PromptInput.toEnd,
         PromptInput.right]).buffer_row = TextEditor.new.buffer_row ∧
     (promptCancelSession TextEditor.new
        [PromptInput.ins 'a', PromptInput.ins 'b', PromptInput.left,
         PromptInput.back, PromptInput.home, PromptInput.toEnd,
         PromptInput.right]).buffer_col = TextEditor.new.buffer_col ∧
     (promptCancelSession TextEditor.new
        [PromptInput.ins 'a', PromptInput.ins 'b', PromptInput.left,
         PromptInput.back, PromptInput.home, PromptInput.toEnd,
         PromptInput.right]).is_modified = TextEditor.new.is_modified) :=
  ⟨by decide,
    c9_prompt_cancel_is_noop TextEditor.new
      [PromptInput.ins 'a', PromptInput.ins 'b', PromptInput.left,
       PromptInput.back, PromptInput.home, PromptInput.toEnd,
       PromptInput.right] (by decide)⟩
